import Mathlib

/-
Shallow embedding of the inspiringshereen-backend registration/payment
workflow.  Two variants of the server exist in the repository:

* the Cashfree variant (src/unnamed/part_000): an in-memory map
  `registrations` from reference id to registrant record, a set
  `confirmedPayments` of confirmed reference ids, and the endpoints
  register, create-payment-order, check-payment-status, confirm-payment
  (legacy), check-payment and cashfree-webhook;

* the Razorpay variant (src/server.js): a set `successfulPayments` of
  payment ids, a map `userDataStore` from gateway order id to contact
  data, and the endpoints register, verify-payment and check-payment.

External collaborators (the payment gateway, the system clock,
crypto.randomBytes, HMAC-SHA256 and the mail relay) are modelled as
oracle inputs to the handlers: the gateway answer is an `Except` value,
timestamps and fresh random tokens are parameters, the HMAC primitive is
a function parameter, and attempted confirmation-email dispatches are an
explicit output list (one `EmailPair` per invocation of
sendConfirmationEmails, which sends one registrant mail and one admin
mail).
-/

namespace InspiringShereen

/-- JS truthiness test used by the validation guards: `!x` is true for a
missing field (undefined) and for the empty string. -/
def jsFalsy : Option String → Bool
  | none => true
  | some s => s == ""

/-- JS `a || b` on an optional string `a` with fallback `b`: the fallback
is taken when `a` is absent or empty (falsy). -/
def jsOr (o : Option String) (d : String) : String :=
  match o with
  | none => d
  | some s => if s == "" then d else s

/-- `Map.get`: first entry with the given key (keys are unique in a JS
Map, so first-match is exact). -/
def mapGet {α : Type} : List (String × α) → String → Option α
  | [], _ => none
  | p :: t, k => if p.1 == k then some p.2 else mapGet t k

/-- `Map.has`: JS `Map.has(k)` is true exactly when `get` is defined. -/
def mapHas {α : Type} (m : List (String × α)) (k : String) : Bool :=
  (mapGet m k).isSome

/-- `Map.set`: replace the value at an existing key in place, otherwise
append a new entry (JS Map preserves insertion order). -/
def mapSet {α : Type} : List (String × α) → String → α → List (String × α)
  | [], k, v => [(k, v)]
  | p :: t, k, v => if p.1 == k then (k, v) :: t else p :: mapSet t k v

/-- `Map.delete`: remove the entry with the given key. -/
def mapDelete {α : Type} (m : List (String × α)) (k : String) : List (String × α) :=
  m.filter (fun p => !(p.1 == k))

/-- `Set.add`: JS Set membership is by value; adding an existing element
is a no-op, a new element is appended. -/
def setAdd (s : List String) (x : String) : List String :=
  if x ∈ s then s else s ++ [x]

/-! ## Cashfree variant (src/unnamed/part_000) -/

/-- One record of the `registrations` map.  `transactionId` and
`orderId` are absent (undefined) until set. -/
structure Registration where
  fullName : String
  email : String
  phone : String
  timestamp : Nat
  paymentConfirmed : Bool
  transactionId : Option String := none
  orderId : Option String := none
deriving Repr, DecidableEq

/-- The process-wide mutable state of the Cashfree variant:
`registrations` (Map) and `confirmedPayments` (Set). -/
structure CFState where
  registrations : List (String × Registration)
  confirmedPayments : List String
deriving Repr, DecidableEq

/-- The state at process start: both containers empty. -/
def CFState.init : CFState := ⟨[], []⟩

/-- One invocation of sendConfirmationEmails: a registrant mail to
`toEmail` plus an admin mail carrying the same reference and transaction
ids.  Send failures are caught inside the function and do not affect the
caller, so only the attempted dispatch is recorded. -/
structure EmailPair where
  toEmail : String
  fullName : String
  referenceId : String
  transactionId : String
deriving Repr, DecidableEq

/-- sendConfirmationEmails(userData, referenceId, transactionId): the
pair of mails it attempts to send. -/
def sendConfirmationEmails (userData : Registration) (referenceId : String)
    (transactionId : String) : EmailPair :=
  ⟨userData.email, userData.fullName, referenceId, transactionId⟩

/-- Response of POST /api/register. -/
structure RegisterResult where
  status : Nat
  success : Bool
  referenceId : Option String
deriving Repr, DecidableEq

/-- POST /api/register.  `freshId` is the token produced by
crypto.randomBytes(6).toString(hex) and `now` is Date.now(); both are
external inputs.  Missing or empty fields are rejected with 400 before
the store is touched. -/
def register (st : CFState) (fullName email phone : Option String)
    (freshId : String) (now : Nat) : CFState × RegisterResult :=
  if jsFalsy fullName || jsFalsy email || jsFalsy phone then
    (st, ⟨400, false, none⟩)
  else
    let userData : Registration :=
      { fullName := fullName.getD "", email := email.getD "",
        phone := phone.getD "", timestamp := now, paymentConfirmed := false }
    (⟨mapSet st.registrations freshId userData, st.confirmedPayments⟩,
     ⟨200, true, some freshId⟩)

/-- Response of POST /api/create-payment-order. -/
structure CreateOrderResult where
  status : Nat
  success : Bool
  orderId : Option String
deriving Repr, DecidableEq

/-- The order id string built by the handler:
ORDER_ followed by the reference id, an underscore and Date.now().
`nowStr` is the decimal rendering of that timestamp. -/
def mkOrderId (referenceId : String) (nowStr : String) : String :=
  "ORDER_" ++ referenceId ++ "_" ++ nowStr

/-- POST /api/create-payment-order.  The Cashfree order-creation call is
an oracle: `gateway` is its outcome (the payload on success is not used
by the store update).  The 404 branch merges the `has` check with the
subsequent `get`, which agree on a JS Map.  On gateway failure the store
is untouched because the update follows the awaited call. -/
def createPaymentOrder (st : CFState) (referenceId : Option String)
    (nowStr : String) (credsConfigured : Bool)
    (gateway : Except String String) : CFState × CreateOrderResult :=
  if jsFalsy referenceId then (st, ⟨400, false, none⟩)
  else
    let refId := referenceId.getD ""
    match mapGet st.registrations refId with
    | none => (st, ⟨404, false, none⟩)
    | some userData =>
      let orderId := mkOrderId refId nowStr
      if credsConfigured then
        match gateway with
        | .error _ => (st, ⟨500, false, none⟩)
        | .ok _sessionId =>
          (⟨mapSet st.registrations refId { userData with orderId := some orderId },
            st.confirmedPayments⟩,
           ⟨200, true, some orderId⟩)
      else (st, ⟨500, false, none⟩)

/-- The order object returned by the Cashfree order-lookup API, reduced
to the fields the handler reads.  `cf_order_id` may be absent or empty,
in which case the code falls back to `order_id`. -/
structure GatewayOrder where
  order_status : String
  cf_order_id : Option String
  order_id : String
deriving Repr, DecidableEq

/-- The for-of scan over registrations.entries() that finds the first
entry whose `orderId` field equals the given order id (an entry with the
field unset never matches, as undefined === string is false).  Returns
the matching key together with its record, merging the scan with the
`registrations.get(referenceId)` that immediately follows it in the
source (they agree on a JS Map). -/
def findPairByOrderId : List (String × Registration) → String →
    Option (String × Registration)
  | [], _ => none
  | p :: t, oid =>
    if p.2.orderId == some oid then some p else findPairByOrderId t oid

/-- Response of GET /api/check-payment-status. -/
structure StatusResult where
  status : Nat
  success : Bool
  orderStatus : Option String
deriving Repr, DecidableEq

/-- GET /api/check-payment-status?orderId=.  `gateway` is the outcome of
the Cashfree order lookup.  When the gateway reports PAID and a
registration is linked to the order, the confirmation transition runs:
mark paid, set transactionId (cf_order_id falling back to order_id), add
to the confirmed set, send the email pair. -/
def checkPaymentStatus (st : CFState) (orderId : Option String)
    (credsConfigured : Bool) (gateway : Except String GatewayOrder) :
    CFState × List EmailPair × StatusResult :=
  if jsFalsy orderId then (st, [], ⟨400, false, none⟩)
  else if credsConfigured then
    match gateway with
    | .error _ => (st, [], ⟨500, false, none⟩)
    | .ok data =>
      if data.order_status == "PAID" then
        match findPairByOrderId st.registrations (orderId.getD "") with
        | some (referenceId, userData) =>
          let txId := jsOr data.cf_order_id data.order_id
          let updated :=
            { userData with paymentConfirmed := true, transactionId := some txId }
          (⟨mapSet st.registrations referenceId updated,
            setAdd st.confirmedPayments referenceId⟩,
           [sendConfirmationEmails updated referenceId txId],
           ⟨200, true, some data.order_status⟩)
        | none => (st, [], ⟨200, true, some data.order_status⟩)
      else (st, [], ⟨200, true, some data.order_status⟩)
  else (st, [], ⟨500, false, none⟩)

/-- Response of POST /api/confirm-payment. -/
structure ConfirmResult where
  status : Nat
  success : Bool
  referenceId : Option String
deriving Repr, DecidableEq

/-- POST /api/confirm-payment (legacy).  Unconditionally marks the
registration paid, records the client-supplied transaction id, adds the
reference to the confirmed set and sends the email pair. -/
def confirmPayment (st : CFState) (referenceId transactionId : Option String) :
    CFState × List EmailPair × ConfirmResult :=
  if jsFalsy referenceId || jsFalsy transactionId then
    (st, [], ⟨400, false, none⟩)
  else
    let refId := referenceId.getD ""
    match mapGet st.registrations refId with
    | none => (st, [], ⟨404, false, none⟩)
    | some userData =>
      let txId := transactionId.getD ""
      let updated :=
        { userData with paymentConfirmed := true, transactionId := some txId }
      (⟨mapSet st.registrations refId updated,
        setAdd st.confirmedPayments refId⟩,
       [sendConfirmationEmails updated refId txId],
       ⟨200, true, some refId⟩)

/-- GET /api/check-payment?reference_id=: the boolean body of the
always-200 response, a membership test against confirmedPayments. -/
def checkPayment (st : CFState) (referenceId : Option String) : Bool :=
  match referenceId with
  | none => false
  | some r => decide (r ∈ st.confirmedPayments)

/-- The part of a webhook body the handler reads: `data.order` when
present. -/
structure WebhookOrder where
  order_id : String
  order_status : String
  cf_order_id : Option String
deriving Repr, DecidableEq

/-- A webhook request body; `dataOrder` is `none` when the payload lacks
`data` or `data.order`. -/
structure WebhookPayload where
  dataOrder : Option WebhookOrder
deriving Repr, DecidableEq

/-- Response of POST /api/cashfree-webhook. -/
structure WebhookResult where
  status : Nat
  success : Bool
deriving Repr, DecidableEq

/-- POST /api/cashfree-webhook.  `crash` models an exception raised
before processing (e.g. in the JSON.stringify logging line, which
precedes every state change): the catch-all branch then replies 200 with
success false.  Otherwise, on a PAID order linked to a registration the
confirmation transition runs; in every case the handler replies 200. -/
def cashfreeWebhook (st : CFState) (payload : WebhookPayload) (crash : Bool) :
    CFState × List EmailPair × WebhookResult :=
  if crash then (st, [], ⟨200, false⟩)
  else
    match payload.dataOrder with
    | none => (st, [], ⟨200, true⟩)
    | some ord =>
      if ord.order_status == "PAID" then
        match findPairByOrderId st.registrations ord.order_id with
        | some (referenceId, userData) =>
          let txId := jsOr ord.cf_order_id ord.order_id
          let updated :=
            { userData with paymentConfirmed := true, transactionId := some txId }
          (⟨mapSet st.registrations referenceId updated,
            setAdd st.confirmedPayments referenceId⟩,
           [sendConfirmationEmails updated referenceId txId],
           ⟨200, true⟩)
        | none => (st, [], ⟨200, true⟩)
      else (st, [], ⟨200, true⟩)

/-! ## Razorpay variant (src/server.js) -/

/-- One record of `userDataStore`, keyed by the gateway order id. -/
structure UserData where
  fullName : String
  email : String
  phone : String
deriving Repr, DecidableEq

/-- The process-wide mutable state of the Razorpay variant:
`successfulPayments` (Set of payment ids) and `userDataStore` (Map from
order id to contact data). -/
structure RZState where
  successfulPayments : List String
  userDataStore : List (String × UserData)
deriving Repr, DecidableEq

/-- The state at process start: both containers empty. -/
def RZState.init : RZState := ⟨[], []⟩

/-- Response of POST /api/register in the Razorpay variant. -/
structure RegisterRZResult where
  status : Nat
  orderId : Option String
deriving Repr, DecidableEq

/-- POST /api/register (Razorpay variant).  Validates the three fields,
then asks the gateway to create an order; `gateway` is the outcome,
carrying the created order id on success.  On success the contact data
is stored under the order id. -/
def registerRZ (st : RZState) (fullName email phone : Option String)
    (gateway : Except String String) : RZState × RegisterRZResult :=
  if jsFalsy fullName || jsFalsy email || jsFalsy phone then
    (st, ⟨400, none⟩)
  else
    match gateway with
    | .error _ => (st, ⟨500, none⟩)
    | .ok orderId =>
      (⟨st.successfulPayments,
        mapSet st.userDataStore orderId
          ⟨fullName.getD "", email.getD "", phone.getD ""⟩⟩,
       ⟨200, some orderId⟩)

/-- Response of POST /api/verify-payment. -/
structure VerifyResult where
  status : Nat
  success : Bool
deriving Repr, DecidableEq

/-- POST /api/verify-payment.  `hmacHex` is the external HMAC-SHA256
primitive (hex digest); the handler recomputes the signature over
orderId, a pipe and paymentId with the gateway secret and rejects with
400 on mismatch, before any state change.  On a match the payment id is
added to successfulPayments; if contact data is stored for the order the
email pair is sent (here the admin mail carries the order and payment
ids) and the entry is deleted. -/
def verifyPayment (hmacHex : String → String → String) (secret : String)
    (st : RZState) (paymentId orderId signature : String) :
    RZState × List EmailPair × VerifyResult :=
  let generated := hmacHex secret (orderId ++ "|" ++ paymentId)
  if generated == signature then
    let payments := setAdd st.successfulPayments paymentId
    match mapGet st.userDataStore orderId with
    | some userData =>
      (⟨payments, mapDelete st.userDataStore orderId⟩,
       [⟨userData.email, userData.fullName, orderId, paymentId⟩],
       ⟨200, true⟩)
    | none => (⟨payments, st.userDataStore⟩, [], ⟨200, true⟩)
  else (st, [], ⟨400, false⟩)

/-- GET /api/check-payment?payment_id= (Razorpay variant): the boolean
body of the always-200 response, a membership test against
successfulPayments. -/
def checkPaymentRZ (st : RZState) (paymentId : Option String) : Bool :=
  match paymentId with
  | none => false
  | some p => decide (p ∈ st.successfulPayments)

/-! ## Reachability and the confirmed-set invariant (Cashfree variant) -/

/-- The states of the Cashfree server reachable from process start by
any sequence of requests.  The register step carries the guarantee of
crypto.randomBytes that the generated token is not an already-issued
key; every other oracle input (gateway answers, payloads, timestamps,
crashes) is unconstrained. -/
inductive Reachable : CFState → Prop where
  | init : Reachable CFState.init
  | registerStep (st : CFState) (fullName email phone : Option String)
      (freshId : String) (now : Nat) (h : Reachable st)
      (hfresh : mapHas st.registrations freshId = false) :
      Reachable (register st fullName email phone freshId now).1
  | createOrderStep (st : CFState) (referenceId : Option String) (nowStr : String)
      (creds : Bool) (gw : Except String String) (h : Reachable st) :
      Reachable (createPaymentOrder st referenceId nowStr creds gw).1
  | checkStatusStep (st : CFState) (orderId : Option String) (creds : Bool)
      (gw : Except String GatewayOrder) (h : Reachable st) :
      Reachable (checkPaymentStatus st orderId creds gw).1
  | confirmStep (st : CFState) (referenceId transactionId : Option String)
      (h : Reachable st) :
      Reachable (confirmPayment st referenceId transactionId).1
  | webhookStep (st : CFState) (payload : WebhookPayload) (crash : Bool)
      (h : Reachable st) :
      Reachable (cashfreeWebhook st payload crash).1

/-- The confirmed set contains exactly the identifiers of stored
registrations whose paymentConfirmed flag is true. -/
def ConfirmedSetConsistent (st : CFState) : Prop :=
  (∀ r ∈ st.confirmedPayments,
    ∃ u, mapGet st.registrations r = some u ∧ u.paymentConfirmed = true) ∧
  (∀ k u, mapGet st.registrations k = some u → u.paymentConfirmed = true →
    k ∈ st.confirmedPayments)

/-- A stand-in for the external HMAC-SHA256 primitive, used to exercise
the verify-payment handler on concrete inputs (the handler only compares
digests for equality). -/
def hmacDemo (key msg : String) : String := "hmac:" ++ key ++ ":" ++ msg

/-! ## Library lemmas about the store operations -/

theorem mapGet_mapSet_self {α : Type} (m : List (String × α)) (k : String) (v : α) :
    mapGet (mapSet m k v) k = some v := by
  induction m with
  | nil => simp [mapSet, mapGet]
  | cons p t ih =>
    by_cases h : p.1 = k
    · simp [mapSet, mapGet, h]
    · simp [mapSet, mapGet, h, ih]

theorem mapGet_mapSet_ne {α : Type} (m : List (String × α)) (k k2 : String) (v : α)
    (h : k2 ≠ k) : mapGet (mapSet m k v) k2 = mapGet m k2 := by
  have h2 : ¬ k = k2 := fun hh => h hh.symm
  induction m with
  | nil => simp [mapSet, mapGet, h2]
  | cons p t ih =>
    by_cases hp : p.1 = k
    · simp [mapSet, mapGet, hp, h2]
    · simp [mapSet, mapGet, hp, ih]

theorem mapGet_eq_none_of_mapHas_false {α : Type} (m : List (String × α))
    (k : String) (h : mapHas m k = false) : mapGet m k = none := by
  cases hg : mapGet m k with
  | none => rfl
  | some v => rw [mapHas, hg] at h; cases h

theorem mem_setAdd_iff (s : List String) (x r : String) :
    r ∈ setAdd s x ↔ r ∈ s ∨ r = x := by
  unfold setAdd
  split
  · rename_i hx
    constructor
    · exact Or.inl
    · rintro (hr | rfl)
      · exact hr
      · exact hx
  · simp [List.mem_append]

theorem mem_setAdd_self (s : List String) (x : String) : x ∈ setAdd s x :=
  (mem_setAdd_iff s x x).2 (Or.inr rfl)

theorem jsOr_ne_empty (o : Option String) (d : String) (hd : d ≠ "") :
    jsOr o d ≠ "" := by
  cases o with
  | none => simpa [jsOr] using hd
  | some s =>
    by_cases hs : s = ""
    · simpa [jsOr, hs] using hd
    · simp [jsOr, hs]

theorem string_append_left_cancel (a b c : String) (h : a ++ b = a ++ c) :
    b = c := by
  have hd : a.data ++ b.data = a.data ++ c.data := by
    have hc := congrArg String.data h
    simpa [String.data_append] using hc
  exact String.ext (List.append_cancel_left hd)

theorem mkOrderId_inj_right (r s t : String) (h : mkOrderId r s = mkOrderId r t) :
    s = t := by
  unfold mkOrderId at h
  exact string_append_left_cancel ("ORDER_" ++ r ++ "_") s t h

theorem findPairByOrderId_mapSet (m : List (String × Registration))
    (k oid : String) (v : Registration) (hv : v.orderId = some oid)
    (hfresh : ∀ p ∈ m, p.2.orderId ≠ some oid) :
    findPairByOrderId (mapSet m k v) oid = some (k, v) := by
  induction m with
  | nil => simp [mapSet, findPairByOrderId, hv]
  | cons p t ih =>
    by_cases hk : p.1 = k
    · simp [mapSet, hk, findPairByOrderId, hv]
    · have hp : p.2.orderId ≠ some oid := hfresh p (List.mem_cons_self p t)
      have ht := ih (fun q hq => hfresh q (List.mem_cons_of_mem p hq))
      simp [mapSet, hk, findPairByOrderId, hp, ht]

/-! ## Preservation of the confirmed-set invariant -/

theorem consistent_insert_unconfirmed (m : List (String × Registration))
    (cp : List String) (k : String) (u : Registration)
    (hfresh : mapGet m k = none) (hu : u.paymentConfirmed = false)
    (ih : ConfirmedSetConsistent ⟨m, cp⟩) :
    ConfirmedSetConsistent ⟨mapSet m k u, cp⟩ := by
  obtain ⟨ih1, ih2⟩ := ih
  constructor
  · intro r hr
    obtain ⟨w, hw, hwf⟩ := ih1 r hr
    by_cases hk : r = k
    · subst hk; rw [hw] at hfresh; cases hfresh
    · exact ⟨w, by rw [mapGet_mapSet_ne m k r u hk]; exact hw, hwf⟩
  · intro k2 w hw hwf
    by_cases hk : k2 = k
    · subst hk
      rw [mapGet_mapSet_self] at hw
      injection hw with hw
      rw [← hw, hu] at hwf
      cases hwf
    · rw [mapGet_mapSet_ne m k k2 u hk] at hw
      exact ih2 k2 w hw hwf

theorem consistent_confirm (m : List (String × Registration)) (cp : List String)
    (k : String) (u : Registration) (hu : u.paymentConfirmed = true)
    (ih : ConfirmedSetConsistent ⟨m, cp⟩) :
    ConfirmedSetConsistent ⟨mapSet m k u, setAdd cp k⟩ := by
  obtain ⟨ih1, ih2⟩ := ih
  constructor
  · intro r hr
    rcases (mem_setAdd_iff cp k r).1 hr with hr2 | rfl
    · by_cases hk : r = k
      · subst hk; exact ⟨u, mapGet_mapSet_self m r u, hu⟩
      · obtain ⟨w, hw, hwf⟩ := ih1 r hr2
        exact ⟨w, by rw [mapGet_mapSet_ne m k r u hk]; exact hw, hwf⟩
    · exact ⟨u, mapGet_mapSet_self m r u, hu⟩
  · intro k2 w hw hwf
    by_cases hk : k2 = k
    · subst hk; exact mem_setAdd_self cp k2
    · rw [mapGet_mapSet_ne m k k2 u hk] at hw
      exact (mem_setAdd_iff cp k k2).2 (Or.inl (ih2 k2 w hw hwf))

theorem consistent_update_flag_preserved (m : List (String × Registration))
    (cp : List String) (k : String) (u v : Registration)
    (hget : mapGet m k = some u)
    (hflag : v.paymentConfirmed = u.paymentConfirmed)
    (ih : ConfirmedSetConsistent ⟨m, cp⟩) :
    ConfirmedSetConsistent ⟨mapSet m k v, cp⟩ := by
  obtain ⟨ih1, ih2⟩ := ih
  constructor
  · intro r hr
    obtain ⟨w, hw, hwf⟩ := ih1 r hr
    by_cases hk : r = k
    · subst hk
      rw [hget] at hw
      injection hw with hw
      refine ⟨v, mapGet_mapSet_self m r v, ?_⟩
      rw [hflag, hw]; exact hwf
    · exact ⟨w, by rw [mapGet_mapSet_ne m k r v hk]; exact hw, hwf⟩
  · intro k2 w hw hwf
    by_cases hk : k2 = k
    · subst hk
      rw [mapGet_mapSet_self] at hw
      injection hw with hw
      rw [← hw, hflag] at hwf
      exact ih2 k2 u hget hwf
    · rw [mapGet_mapSet_ne m k k2 v hk] at hw
      exact ih2 k2 w hw hwf

theorem register_preserves_consistent (st : CFState)
    (fullName email phone : Option String) (freshId : String) (now : Nat)
    (hfresh : mapHas st.registrations freshId = false)
    (ih : ConfirmedSetConsistent st) :
    ConfirmedSetConsistent (register st fullName email phone freshId now).1 := by
  unfold register
  split
  · exact ih
  · exact consistent_insert_unconfirmed st.registrations st.confirmedPayments
      freshId _ (mapGet_eq_none_of_mapHas_false _ _ hfresh) rfl ih

theorem createOrder_preserves_consistent (st : CFState)
    (referenceId : Option String) (nowStr : String) (creds : Bool)
    (gw : Except String String) (ih : ConfirmedSetConsistent st) :
    ConfirmedSetConsistent (createPaymentOrder st referenceId nowStr creds gw).1 := by
  unfold createPaymentOrder
  split
  · exact ih
  · cases hget : mapGet st.registrations (referenceId.getD "") with
    | none => simp only [hget]; exact ih
    | some userData =>
      simp only [hget]
      cases creds with
      | false => simpa using ih
      | true =>
        rw [if_pos rfl]
        cases gw with
        | error e => exact ih
        | ok s =>
          exact consistent_update_flag_preserved st.registrations
            st.confirmedPayments _ userData _ hget rfl ih

theorem checkStatus_preserves_consistent (st : CFState)
    (orderId : Option String) (creds : Bool) (gw : Except String GatewayOrder)
    (ih : ConfirmedSetConsistent st) :
    ConfirmedSetConsistent (checkPaymentStatus st orderId creds gw).1 := by
  unfold checkPaymentStatus
  split
  · exact ih
  · split
    · split
      · exact ih
      · split
        · split
          · exact consistent_confirm st.registrations st.confirmedPayments
              _ _ rfl ih
          · exact ih
        · exact ih
    · exact ih

theorem confirm_preserves_consistent (st : CFState)
    (referenceId transactionId : Option String)
    (ih : ConfirmedSetConsistent st) :
    ConfirmedSetConsistent (confirmPayment st referenceId transactionId).1 := by
  unfold confirmPayment
  split
  · exact ih
  · cases hget : mapGet st.registrations (referenceId.getD "") with
    | none => simp only [hget]; exact ih
    | some userData =>
      simp only [hget]
      exact consistent_confirm st.registrations st.confirmedPayments _ _ rfl ih

theorem webhook_preserves_consistent (st : CFState) (payload : WebhookPayload)
    (crash : Bool) (ih : ConfirmedSetConsistent st) :
    ConfirmedSetConsistent (cashfreeWebhook st payload crash).1 := by
  unfold cashfreeWebhook
  split
  · exact ih
  · split
    · exact ih
    · split
      · split
        · exact consistent_confirm st.registrations st.confirmedPayments
            _ _ rfl ih
        · exact ih
      · exact ih

/-! ## Claims -/

/-- C2: a verify-payment confirmation is accepted only when the
client-submitted signature equals the hex HMAC-SHA256 of the string
orderId, pipe, paymentId under the gateway shared secret; on any
mismatch the endpoint returns 400, sends no emails and leaves the whole
state unchanged, so the payment id does not enter the
successful-payments set. -/
theorem C2_invalid_signature_rejected (hmacHex : String → String → String)
    (secret : String) (st : RZState) (paymentId orderId signature : String)
    (hsig : hmacHex secret (orderId ++ "|" ++ paymentId) ≠ signature) :
    verifyPayment hmacHex secret st paymentId orderId signature
        = (st, [], ⟨400, false⟩) ∧
    (paymentId ∉ st.successfulPayments →
      paymentId ∉ (verifyPayment hmacHex secret st paymentId orderId
        signature).1.successfulPayments) := by
  have hne : (hmacHex secret (orderId ++ "|" ++ paymentId) == signature) = false := by
    simp [hsig]
  have hstate : verifyPayment hmacHex secret st paymentId orderId signature
      = (st, [], ⟨400, false⟩) := by
    simp [verifyPayment, hne]
  exact ⟨hstate, fun hmem => by rw [hstate]; exact hmem⟩

/-- Witness for C2 at a concrete mismatching signature. -/
theorem C2_invalid_signature_rejected_witness :
    verifyPayment hmacDemo "secret" RZState.init "pay_1" "order_1" "bad"
        = (RZState.init, [], ⟨400, false⟩) ∧
    ("pay_1" ∉ RZState.init.successfulPayments →
      "pay_1" ∉ (verifyPayment hmacDemo "secret" RZState.init "pay_1" "order_1"
        "bad").1.successfulPayments) :=
  C2_invalid_signature_rejected hmacDemo "secret" RZState.init "pay_1" "order_1"
    "bad" (by decide)

/-- C3: the webhook endpoint replies HTTP 200 for every payload and
every state, whether internal processing completes or raises. -/
theorem C3_webhook_always_200 (st : CFState) (payload : WebhookPayload)
    (crash : Bool) :
    (cashfreeWebhook st payload crash).2.2.status = 200 := by
  unfold cashfreeWebhook
  split
  · rfl
  · split
    · rfl
    · split
      · split
        · rfl
        · rfl
      · rfl

/-- C5: registering with the three fields present and non-empty returns
the freshly generated token, not previously a key of the store (the
collision-freeness of crypto.randomBytes is the freshness hypothesis),
and afterwards the store holds a record under it with paymentConfirmed
false; the confirmed set is untouched. -/
theorem C5_register_success (st : CFState) (fullName email phone : Option String)
    (freshId : String) (now : Nat)
    (hf : jsFalsy fullName = false) (he : jsFalsy email = false)
    (hp : jsFalsy phone = false)
    (hfresh : mapHas st.registrations freshId = false) :
    (register st fullName email phone freshId now).2 = ⟨200, true, some freshId⟩ ∧
    mapGet st.registrations freshId = none ∧
    mapGet (register st fullName email phone freshId now).1.registrations freshId =
      some ⟨fullName.getD "", email.getD "", phone.getD "", now, false, none, none⟩ ∧
    (register st fullName email phone freshId now).1.confirmedPayments =
      st.confirmedPayments := by
  have hcond : (jsFalsy fullName || jsFalsy email || jsFalsy phone) = false := by
    simp [hf, he, hp]
  refine ⟨?_, mapGet_eq_none_of_mapHas_false _ _ hfresh, ?_, ?_⟩
  · simp [register, hcond]
  · simp [register, hcond, mapGet_mapSet_self]
  · simp [register, hcond]

/-- Witness for C5 on the empty store. -/
theorem C5_register_success_witness :
    (register CFState.init (some "Asha") (some "a@x.com") (some "9") "r1" 7).2
        = ⟨200, true, some "r1"⟩ ∧
    mapGet CFState.init.registrations "r1" = none ∧
    mapGet (register CFState.init (some "Asha") (some "a@x.com") (some "9")
        "r1" 7).1.registrations "r1"
        = some ⟨"Asha", "a@x.com", "9", 7, false, none, none⟩ ∧
    (register CFState.init (some "Asha") (some "a@x.com") (some "9")
        "r1" 7).1.confirmedPayments = CFState.init.confirmedPayments :=
  C5_register_success CFState.init (some "Asha") (some "a@x.com") (some "9")
    "r1" 7 (by decide) (by decide) (by decide) (by decide)

/-- C6: a register request with any of the three fields missing or empty
is rejected with 400 and the state is unchanged, in both variants. -/
theorem C6_register_missing_field_rejected (st : CFState) (rz : RZState)
    (fullName email phone : Option String) (freshId : String) (now : Nat)
    (gw : Except String String)
    (hmiss : jsFalsy fullName = true ∨ jsFalsy email = true ∨ jsFalsy phone = true) :
    register st fullName email phone freshId now = (st, ⟨400, false, none⟩) ∧
    registerRZ rz fullName email phone gw = (rz, ⟨400, none⟩) := by
  have hcond : (jsFalsy fullName || jsFalsy email || jsFalsy phone) = true := by
    rcases hmiss with h | h | h <;> simp [h]
  constructor
  · simp [register, hcond]
  · simp [registerRZ, hcond]

/-- Witness for C6 with a missing fullName. -/
theorem C6_register_missing_field_rejected_witness :
    register CFState.init none (some "a@x.com") (some "9") "r1" 7
        = (CFState.init, ⟨400, false, none⟩) ∧
    registerRZ RZState.init none (some "a@x.com") (some "9") (Except.ok "o1")
        = (RZState.init, ⟨400, none⟩) :=
  C6_register_missing_field_rejected CFState.init RZState.init none
    (some "a@x.com") (some "9") "r1" 7 (Except.ok "o1") (Or.inl (by decide))

/-- C9: a verify-payment request with a valid signature whose order id
has no stored user data still adds the payment id to the
successful-payments set and replies success while sending no emails, so
a later check-payment query for that payment id returns true. -/
theorem C9_verify_without_userdata (hmacHex : String → String → String)
    (secret : String) (st : RZState) (paymentId orderId signature : String)
    (hsig : hmacHex secret (orderId ++ "|" ++ paymentId) = signature)
    (hnouser : mapGet st.userDataStore orderId = none) :
    verifyPayment hmacHex secret st paymentId orderId signature
        = (⟨setAdd st.successfulPayments paymentId, st.userDataStore⟩, [],
           ⟨200, true⟩) ∧
    checkPaymentRZ (verifyPayment hmacHex secret st paymentId orderId
        signature).1 (some paymentId) = true := by
  have hbeq : (hmacHex secret (orderId ++ "|" ++ paymentId) == signature) = true := by
    simp [hsig]
  have hstate : verifyPayment hmacHex secret st paymentId orderId signature
      = (⟨setAdd st.successfulPayments paymentId, st.userDataStore⟩, [],
         ⟨200, true⟩) := by
    simp [verifyPayment, hbeq, hnouser]
  refine ⟨hstate, ?_⟩
  rw [hstate]
  simp [checkPaymentRZ, mem_setAdd_self]

/-- Witness for C9 on the empty store with a matching signature. -/
theorem C9_verify_without_userdata_witness :
    verifyPayment hmacDemo "sec" RZState.init "pay_1" "ord_1"
        (hmacDemo "sec" ("ord_1" ++ "|" ++ "pay_1"))
      = (⟨setAdd RZState.init.successfulPayments "pay_1",
          RZState.init.userDataStore⟩, [], ⟨200, true⟩) ∧
    checkPaymentRZ (verifyPayment hmacDemo "sec" RZState.init "pay_1" "ord_1"
        (hmacDemo "sec" ("ord_1" ++ "|" ++ "pay_1"))).1 (some "pay_1") = true :=
  C9_verify_without_userdata hmacDemo "sec" RZState.init "pay_1" "ord_1"
    (hmacDemo "sec" ("ord_1" ++ "|" ++ "pay_1")) rfl rfl

/-- C10: a webhook payload lacking data.order, or whose status is not
PAID, or whose order id matches no registration, leaves the store and
the confirmed set unchanged, sends no emails, and still replies 200. -/
theorem C10_webhook_no_match_frame (st : CFState) (payload : WebhookPayload)
    (hno : payload.dataOrder = none ∨
      ∃ ord, payload.dataOrder = some ord ∧
        (ord.order_status ≠ "PAID" ∨
          findPairByOrderId st.registrations ord.order_id = none)) :
    cashfreeWebhook st payload false = (st, [], ⟨200, true⟩) := by
  rcases hno with hnone | ⟨ord, hord, hrest⟩
  · simp [cashfreeWebhook, hnone]
  · rcases hrest with hstatus | hfind
    · simp [cashfreeWebhook, hord, hstatus]
    · by_cases hstatus : ord.order_status = "PAID"
      · simp [cashfreeWebhook, hord, hstatus, hfind]
      · simp [cashfreeWebhook, hord, hstatus]

/-- Witness for C10 with a payload lacking data.order. -/
theorem C10_webhook_no_match_frame_witness :
    cashfreeWebhook CFState.init ⟨none⟩ false = (CFState.init, [], ⟨200, true⟩) :=
  C10_webhook_no_match_frame CFState.init ⟨none⟩ (Or.inl rfl)

/-- C4: when a status poll or a webhook observes status PAID for an
order id O linked to registration R1 (the reverse scan finds R1), the
handler sets paymentConfirmed true, sets transactionId to a non-empty
value (cf_order_id falling back to the non-empty order id) and puts R1
into the confirmed set.  For the poll, the gateway answer echoes the
queried order id. -/
theorem C4_paid_confirms_registration (st : CFState) (R1 O : String)
    (userRec : Registration) (gw : GatewayOrder) (cfid : Option String)
    (hO : O ≠ "")
    (hfind : findPairByOrderId st.registrations O = some (R1, userRec))
    (hstatus : gw.order_status = "PAID") (hgwId : gw.order_id = O) :
    (jsOr gw.cf_order_id gw.order_id ≠ "" ∧
      mapGet (checkPaymentStatus st (some O) true (Except.ok gw)).1.registrations R1
        = some { userRec with paymentConfirmed := true, transactionId := some (jsOr gw.cf_order_id gw.order_id) } ∧
      R1 ∈ (checkPaymentStatus st (some O) true (Except.ok gw)).1.confirmedPayments) ∧
    (jsOr cfid O ≠ "" ∧
      mapGet (cashfreeWebhook st ⟨some ⟨O, "PAID", cfid⟩⟩ false).1.registrations R1
        = some { userRec with paymentConfirmed := true, transactionId := some (jsOr cfid O) } ∧
      R1 ∈ (cashfreeWebhook st ⟨some ⟨O, "PAID", cfid⟩⟩ false).1.confirmedPayments) := by
  have hOb : (O == "") = false := by simp [hO]
  have heval1 : checkPaymentStatus st (some O) true (Except.ok gw)
      = (⟨mapSet st.registrations R1
            { userRec with paymentConfirmed := true, transactionId := some (jsOr gw.cf_order_id gw.order_id) },
          setAdd st.confirmedPayments R1⟩,
         [sendConfirmationEmails
            { userRec with paymentConfirmed := true, transactionId := some (jsOr gw.cf_order_id gw.order_id) } R1
            (jsOr gw.cf_order_id gw.order_id)],
         ⟨200, true, some gw.order_status⟩) := by
    simp [checkPaymentStatus, jsFalsy, hOb, hstatus, hfind]
  have heval2 : cashfreeWebhook st ⟨some ⟨O, "PAID", cfid⟩⟩ false
      = (⟨mapSet st.registrations R1
            { userRec with paymentConfirmed := true, transactionId := some (jsOr cfid O) },
          setAdd st.confirmedPayments R1⟩,
         [sendConfirmationEmails
            { userRec with paymentConfirmed := true, transactionId := some (jsOr cfid O) } R1 (jsOr cfid O)],
         ⟨200, true⟩) := by
    simp [cashfreeWebhook, hfind]
  have htx1 : jsOr gw.cf_order_id gw.order_id ≠ "" :=
    jsOr_ne_empty _ _ (by rw [hgwId]; exact hO)
  refine ⟨⟨htx1, ?_, ?_⟩, ⟨jsOr_ne_empty _ _ hO, ?_, ?_⟩⟩
  · rw [heval1]; exact mapGet_mapSet_self _ _ _
  · rw [heval1]; exact mem_setAdd_self _ _
  · rw [heval2]; exact mapGet_mapSet_self _ _ _
  · rw [heval2]; exact mem_setAdd_self _ _

/-- Witness for C4 on a one-registration store linked to order ORD1. -/
theorem C4_paid_confirms_registration_witness :
    (jsOr (none : Option String) "ORD1" ≠ "" ∧
      mapGet (checkPaymentStatus
          ⟨[("r1", ⟨"Asha", "a@x.com", "9", 0, false, none, some "ORD1"⟩)], []⟩
          (some "ORD1") true (Except.ok ⟨"PAID", none, "ORD1"⟩)).1.registrations "r1"
        = some ⟨"Asha", "a@x.com", "9", 0, true,
                some (jsOr (none : Option String) "ORD1"), some "ORD1"⟩ ∧
      "r1" ∈ (checkPaymentStatus
          ⟨[("r1", ⟨"Asha", "a@x.com", "9", 0, false, none, some "ORD1"⟩)], []⟩
          (some "ORD1") true (Except.ok ⟨"PAID", none, "ORD1"⟩)).1.confirmedPayments) ∧
    (jsOr (none : Option String) "ORD1" ≠ "" ∧
      mapGet (cashfreeWebhook
          ⟨[("r1", ⟨"Asha", "a@x.com", "9", 0, false, none, some "ORD1"⟩)], []⟩
          ⟨some ⟨"ORD1", "PAID", none⟩⟩ false).1.registrations "r1"
        = some ⟨"Asha", "a@x.com", "9", 0, true,
                some (jsOr (none : Option String) "ORD1"), some "ORD1"⟩ ∧
      "r1" ∈ (cashfreeWebhook
          ⟨[("r1", ⟨"Asha", "a@x.com", "9", 0, false, none, some "ORD1"⟩)], []⟩
          ⟨some ⟨"ORD1", "PAID", none⟩⟩ false).1.confirmedPayments) :=
  C4_paid_confirms_registration
    ⟨[("r1", ⟨"Asha", "a@x.com", "9", 0, false, none, some "ORD1"⟩)], []⟩
    "r1" "ORD1" ⟨"Asha", "a@x.com", "9", 0, false, none, some "ORD1"⟩
    ⟨"PAID", none, "ORD1"⟩ none (by decide) (by decide) rfl rfl

/-- C7: creating a payment order for an existing registration returns
ORDER_ref_timestamp and records it on the registration; re-invoking with
a later timestamp returns a new, distinct order id while the record is
still present (updated, not deleted); and the reverse lookup by the
created order id returns the originating reference. -/
theorem C7_create_order_links (st : CFState) (R1 : String)
    (userRec : Registration) (now1 now2 sess1 sess2 : String)
    (hR : R1 ≠ "")
    (hget : mapGet st.registrations R1 = some userRec)
    (hnow : now1 ≠ now2)
    (hfresh : ∀ p ∈ st.registrations, p.2.orderId ≠ some (mkOrderId R1 now1)) :
    (createPaymentOrder st (some R1) now1 true (Except.ok sess1)).2.orderId
        = some (mkOrderId R1 now1) ∧
    mapGet (createPaymentOrder st (some R1) now1 true
        (Except.ok sess1)).1.registrations R1
        = some { userRec with orderId := some (mkOrderId R1 now1) } ∧
    mkOrderId R1 now2 ≠ mkOrderId R1 now1 ∧
    (createPaymentOrder (createPaymentOrder st (some R1) now1 true
        (Except.ok sess1)).1 (some R1) now2 true (Except.ok sess2)).2.orderId
        = some (mkOrderId R1 now2) ∧
    mapGet (createPaymentOrder (createPaymentOrder st (some R1) now1 true
        (Except.ok sess1)).1 (some R1) now2 true
        (Except.ok sess2)).1.registrations R1
        = some { userRec with orderId := some (mkOrderId R1 now2) } ∧
    findPairByOrderId (createPaymentOrder st (some R1) now1 true
        (Except.ok sess1)).1.registrations (mkOrderId R1 now1)
        = some (R1, { userRec with orderId := some (mkOrderId R1 now1) }) := by
  have hRb : (R1 == "") = false := by simp [hR]
  have heval1 : createPaymentOrder st (some R1) now1 true (Except.ok sess1)
      = (⟨mapSet st.registrations R1
            { userRec with orderId := some (mkOrderId R1 now1) },
          st.confirmedPayments⟩, ⟨200, true, some (mkOrderId R1 now1)⟩) := by
    simp [createPaymentOrder, jsFalsy, hRb, hget]
  have hget1 : mapGet (createPaymentOrder st (some R1) now1 true
      (Except.ok sess1)).1.registrations R1
      = some { userRec with orderId := some (mkOrderId R1 now1) } := by
    rw [heval1]; exact mapGet_mapSet_self _ _ _
  have heval2 : createPaymentOrder (createPaymentOrder st (some R1) now1 true
      (Except.ok sess1)).1 (some R1) now2 true (Except.ok sess2)
      = (⟨mapSet (createPaymentOrder st (some R1) now1 true
            (Except.ok sess1)).1.registrations R1
            { userRec with orderId := some (mkOrderId R1 now2) },
          (createPaymentOrder st (some R1) now1 true
            (Except.ok sess1)).1.confirmedPayments⟩,
         ⟨200, true, some (mkOrderId R1 now2)⟩) := by
    rw [heval1]
    simp [createPaymentOrder, jsFalsy, hRb, mapGet_mapSet_self]
  refine ⟨?_, hget1, ?_, ?_, ?_, ?_⟩
  · rw [heval1]
  · exact fun h => hnow ((mkOrderId_inj_right R1 now2 now1 h).symm)
  · rw [heval2]
  · rw [heval2]; exact mapGet_mapSet_self _ _ _
  · rw [heval1]
    exact findPairByOrderId_mapSet st.registrations R1 (mkOrderId R1 now1)
      _ rfl hfresh

/-- Witness for C7 on a one-registration store with timestamps 100 and
101. -/
theorem C7_create_order_links_witness :
    (createPaymentOrder ⟨[("r1", ⟨"Asha", "a@x.com", "9", 0, false, none, none⟩)], []⟩
        (some "r1") "100" true (Except.ok "s1")).2.orderId
        = some (mkOrderId "r1" "100") ∧
    mapGet (createPaymentOrder
        ⟨[("r1", ⟨"Asha", "a@x.com", "9", 0, false, none, none⟩)], []⟩
        (some "r1") "100" true (Except.ok "s1")).1.registrations "r1"
        = some ⟨"Asha", "a@x.com", "9", 0, false, none,
                some (mkOrderId "r1" "100")⟩ ∧
    mkOrderId "r1" "101" ≠ mkOrderId "r1" "100" ∧
    (createPaymentOrder (createPaymentOrder
        ⟨[("r1", ⟨"Asha", "a@x.com", "9", 0, false, none, none⟩)], []⟩
        (some "r1") "100" true (Except.ok "s1")).1 (some "r1") "101" true
        (Except.ok "s2")).2.orderId = some (mkOrderId "r1" "101") ∧
    mapGet (createPaymentOrder (createPaymentOrder
        ⟨[("r1", ⟨"Asha", "a@x.com", "9", 0, false, none, none⟩)], []⟩
        (some "r1") "100" true (Except.ok "s1")).1 (some "r1") "101" true
        (Except.ok "s2")).1.registrations "r1"
        = some ⟨"Asha", "a@x.com", "9", 0, false, none,
                some (mkOrderId "r1" "101")⟩ ∧
    findPairByOrderId (createPaymentOrder
        ⟨[("r1", ⟨"Asha", "a@x.com", "9", 0, false, none, none⟩)], []⟩
        (some "r1") "100" true (Except.ok "s1")).1.registrations
        (mkOrderId "r1" "100")
        = some ("r1", ⟨"Asha", "a@x.com", "9", 0, false, none,
                       some (mkOrderId "r1" "100")⟩) :=
  C7_create_order_links
    ⟨[("r1", ⟨"Asha", "a@x.com", "9", 0, false, none, none⟩)], []⟩
    "r1" ⟨"Asha", "a@x.com", "9", 0, false, none, none⟩ "100" "101" "s1" "s2"
    (by decide) rfl (by decide) (by decide)

/-- C8, counterexample to the claim as stated: in the Razorpay variant a
valid-signature verify-payment on the empty store puts the payment id
into the successful-payments set although no registration is stored at
all, so the confirmed set is not the set of registrations whose
paymentConfirmed flag is true. -/
theorem C8_razorpay_counterexample :
    (verifyPayment hmacDemo "sec" RZState.init "pay_1" "ord_1"
        (hmacDemo "sec" ("ord_1" ++ "|" ++ "pay_1"))).1.successfulPayments
      = ["pay_1"] ∧
    (verifyPayment hmacDemo "sec" RZState.init "pay_1" "ord_1"
        (hmacDemo "sec" ("ord_1" ++ "|" ++ "pay_1"))).1.userDataStore = [] := by
  decide

/-- C8 (amended to the Cashfree variant, whose records carry the
paymentConfirmed flag): at every reachable state of the Cashfree server
the confirmed set contains exactly the identifiers of stored
registrations whose paymentConfirmed flag is true; every confirming
operation adds the identifier and sets the flag together.  (In the
Razorpay variant the successful-payments set is keyed by gateway payment
id and can hold ids with no stored registration.) -/
theorem C8_confirmed_set_matches_flags (st : CFState) (h : Reachable st) :
    ConfirmedSetConsistent st := by
  induction h with
  | init =>
    constructor
    · intro r hr; cases hr
    · intro k u hu hf; simp [CFState.init, mapGet] at hu
  | registerStep st f e p id now h hfresh ih =>
    exact register_preserves_consistent st f e p id now hfresh ih
  | createOrderStep st referenceId nowStr creds gw h ih =>
    exact createOrder_preserves_consistent st referenceId nowStr creds gw ih
  | checkStatusStep st orderId creds gw h ih =>
    exact checkStatus_preserves_consistent st orderId creds gw ih
  | confirmStep st referenceId transactionId h ih =>
    exact confirm_preserves_consistent st referenceId transactionId ih
  | webhookStep st payload crash h ih =>
    exact webhook_preserves_consistent st payload crash ih

/-- Witness for the amended C8 at a reachable state with one confirmed
registration. -/
theorem C8_confirmed_set_matches_flags_witness :
    ConfirmedSetConsistent (confirmPayment ((register CFState.init (some "Asha")
        (some "a@x.com") (some "9") "r1" 0).1) (some "r1") (some "TX")).1 :=
  C8_confirmed_set_matches_flags _
    (Reachable.confirmStep _ (some "r1") (some "TX")
      (Reachable.registerStep CFState.init (some "Asha") (some "a@x.com")
        (some "9") "r1" 0 Reachable.init (by decide)))

/-- C1: the code does not guard the confirmation transition behind the
paymentConfirmed flag, so replaying a confirmation path for an
already-confirmed registration sends the email pair again.  After
register, create-order and a first PAID webhook, r1 is confirmed; the
identical second webhook delivery emits another email pair instead of
none. -/
theorem C1_repeated_confirmation_resends_emails :
    (let st3 := (cashfreeWebhook (createPaymentOrder ((register CFState.init
        (some "Asha") (some "a@x.com") (some "9") "r1" 0).1) (some "r1") "100"
        true (Except.ok "sess")).1 ⟨some ⟨mkOrderId "r1" "100", "PAID", none⟩⟩
        false).1
     (mapGet st3.registrations "r1").map (fun u => u.paymentConfirmed)
        = some true ∧
     (cashfreeWebhook st3 ⟨some ⟨mkOrderId "r1" "100", "PAID", none⟩⟩
        false).2.1
        = [⟨"a@x.com", "Asha", "r1", mkOrderId "r1" "100"⟩]) := by
  decide

end InspiringShereen
